import Mathlib

/-!
Verification of the LLM Council backend (backend/main.py, backend/config.py).

The three-stage council pipeline is orchestrated by `event_generator` inside
`send_message_stream`, and by `send_message` for the synchronous path, both in
backend/main.py.  The council-stage helpers (`stage1_collect_responses`,
`stage2_collect_rankings`, `stage3_synthesize_final`,
`calculate_aggregate_rankings`, `generate_conversation_title`) live in
backend/council.py and the conversation store in backend/storage.py; those two
modules are not part of the sources available here, so their behaviour at the
call boundary is modelled: each awaited council call is an exogenous outcome
(either a returned value or a raised exception), and the pure aggregation
algorithm and the storage operations are modelled from the specification.
-/

/-- Outcome of an awaited call into council.py: either a returned value or a
raised exception carrying its message (`str(e)` in the `except` handler). -/
inductive CallResult (α : Type) where
  | ok (val : α)
  | err (msg : String)
deriving DecidableEq, Repr

/-- Modelled from the spec: a per-model Stage-1 outcome, `{model, text, error}`
with exactly one of `text` / `error` set (spec section 3, ModelResponse). -/
structure ModelResponse where
  model : String
  text : Option String
  error : Option String
deriving DecidableEq, Repr

/-- Modelled from the spec: a judge's ranking submission (spec section 3,
RankingSubmission). -/
structure RankingSubmission where
  judge : String
  ordered_labels : List String
  raw_text : String
  error : Option String
deriving DecidableEq, Repr

/-- Stage-1 payload: one `ModelResponse` per council model. -/
abbrev Stage1Data := List ModelResponse

/-- Stage-2 payload: one `RankingSubmission` per council model. -/
abbrev Stage2Data := List RankingSubmission

/-- The label-to-model mapping built during Stage 2 (`label_to_model` in
main.py line 426). -/
abbrev LabelMap := List (String × String)

/-- Stage-3 payload: the chairman's synthesized answer text. -/
abbrev Stage3Data := String

/-- Aggregate ranking: models with scores, sorted best-first. -/
abbrev AggregateRanking := List (String × Nat)

/-- Council membership, from backend/config.py `COUNCIL_MODELS`. -/
def COUNCIL_MODELS : List String :=
  ["gpt-4o", "gemini-2.0-flash", "claude-sonnet-4-5"]

/-- Chairman model, from backend/config.py `CHAIRMAN_MODEL`. -/
def CHAIRMAN_MODEL : String := "gpt-4o"

/-- The labels of a given model under a label map (a model has at most one). -/
def modelLabels (lm : LabelMap) (m : String) : List String :=
  (lm.filter (fun p => p.2 == m)).map Prod.fst

/-- Modelled from the spec: points one submission awards one label
(spec section 4.5): a successful submission that ranked N labels gives its
1-based position i the value N - i + 1; omitted labels get 0; failed
submissions award nothing. -/
def labelPoints (s : RankingSubmission) (l : String) : Nat :=
  if s.error.isSome then 0
  else
    match s.ordered_labels.findIdx? (fun x => x == l) with
    | some i => s.ordered_labels.length - i
    | none => 0

/-- Points one submission awards one model (via its labels). -/
def submissionPoints (lm : LabelMap) (m : String) (s : RankingSubmission) : Nat :=
  ((modelLabels lm m).map (labelPoints s)).sum

/-- A model's aggregate score: sum of its points over all submissions. -/
def modelScore (subs : List RankingSubmission) (lm : LabelMap) (m : String) : Nat :=
  (subs.map (submissionPoints lm m)).sum

/-- Number of submissions that put one of the model's labels in first place. -/
def firstPlaceVotes (subs : List RankingSubmission) (lm : LabelMap) (m : String) : Nat :=
  subs.countP (fun s =>
    s.error.isNone &&
      (match s.ordered_labels.head? with
       | some l => (modelLabels lm m).contains l
       | none => false))

/-- Sort key comparison for aggregate entries `(model, score, firstPlaceVotes)`:
descending score, then descending first-place votes, then ascending model
identifier (spec section 4.5 tie-break). -/
def aggBefore (a b : String × Nat × Nat) : Bool :=
  decide (b.2.1 < a.2.1) ||
    (a.2.1 == b.2.1 &&
      (decide (b.2.2 < a.2.2) || (a.2.2 == b.2.2 && decide (a.1 ≤ b.1))))

/-- Modelled from the spec: council.py's `calculate_aggregate_rankings` is not
among the available sources; per spec section 4.5 it sums inverse-rank points
per model across all judges via the label map and sorts by descending score
with first-place-count then lexicographic tie-breaks. -/
def calculate_aggregate_rankings (subs : List RankingSubmission) (lm : LabelMap) :
    AggregateRanking :=
  ((((lm.map Prod.snd).map (fun m =>
      (m, modelScore subs lm m, firstPlaceVotes subs lm m))).mergeSort
    aggBefore).map (fun e => (e.1, e.2.1)))

/-- Conversation messages (storage.py is not among the available sources;
modelled from the spec: the store appends a user message, then, on success,
one assistant message holding all three stages). -/
inductive Message where
  | user (content : String)
  | assistant (stage1 : Stage1Data) (stage2 : Stage2Data) (stage3 : Stage3Data)
deriving DecidableEq, Repr

/-- A stored conversation: title plus ordered messages. -/
structure Conversation where
  title : String
  messages : List Message
deriving DecidableEq, Repr

/-- Modelled from the spec: `storage.add_user_message` appends the user
message to the conversation. -/
def add_user_message (c : Conversation) (content : String) : Conversation :=
  { c with messages := c.messages ++ [Message.user content] }

/-- Modelled from the spec: `storage.update_conversation_title` replaces the
conversation title. -/
def update_conversation_title (c : Conversation) (t : String) : Conversation :=
  { c with title := t }

/-- Modelled from the spec: `storage.add_assistant_message` appends one
assistant message carrying all three stage results. -/
def add_assistant_message (c : Conversation) (s1 : Stage1Data) (s2 : Stage2Data)
    (s3 : Stage3Data) : Conversation :=
  { c with messages := c.messages ++ [Message.assistant s1 s2 s3] }

/-- Payload attached to a server-sent event, mirroring the `data`/`metadata`
fields of the JSON objects built in main.py lines 420-454.  The constructor
`fullTurn` is the payload shape the spec describes for a terminal `complete`
event (a complete CouncilTurn); it follows the spec words only and is never
produced by the code translation. -/
inductive Payload where
  | stage1 (data : Stage1Data)
  | stage2 (data : Stage2Data) (label_to_model : LabelMap)
      (aggregate_rankings : AggregateRanking)
  | stage3 (data : Stage3Data)
  | titleData (title : String)
  | errorMessage (message : String)
  | fullTurn (stage1 : Stage1Data) (stage2 : Stage2Data) (stage3 : Stage3Data)
      (aggregate : AggregateRanking)
deriving DecidableEq, Repr

/-- A server-sent event: its `type` string and optional payload. -/
structure Event where
  type : String
  payload : Option Payload
deriving DecidableEq, Repr

/-- `{'type': 'stage1_start'}` (main.py line 420). -/
def evStage1Start : Event := ⟨"stage1_start", none⟩

/-- `{'type': 'stage1_complete', 'data': ...}` (main.py line 422). -/
def evStage1Complete (d : Stage1Data) : Event :=
  ⟨"stage1_complete", some (Payload.stage1 d)⟩

/-- `{'type': 'stage2_start'}` (main.py line 425). -/
def evStage2Start : Event := ⟨"stage2_start", none⟩

/-- `{'type': 'stage2_complete', 'data': ..., 'metadata': {'label_to_model':
..., 'aggregate_rankings': ...}}` (main.py line 428). -/
def evStage2Complete (d : Stage2Data) (lm : LabelMap) (agg : AggregateRanking) :
    Event :=
  ⟨"stage2_complete", some (Payload.stage2 d lm agg)⟩

/-- `{'type': 'stage3_start'}` (main.py line 431). -/
def evStage3Start : Event := ⟨"stage3_start", none⟩

/-- `{'type': 'stage3_complete', 'data': ...}` (main.py line 433). -/
def evStage3Complete (d : Stage3Data) : Event :=
  ⟨"stage3_complete", some (Payload.stage3 d)⟩

/-- `{'type': 'title_complete', 'data': {'title': ...}}` (main.py line 439). -/
def evTitleComplete (t : String) : Event :=
  ⟨"title_complete", some (Payload.titleData t)⟩

/-- `{'type': 'complete'}` (main.py line 450): note it carries no payload. -/
def evComplete : Event := ⟨"complete", none⟩

/-- `{'type': 'error', 'message': str(e)}` (main.py line 454). -/
def evError (m : String) : Event := ⟨"error", some (Payload.errorMessage m)⟩

/-- Position of an event type in the protocol order; both terminal events
(`complete`, `error`) share the final position, and at most one terminal
event occurs per stream. -/
def evRank (e : Event) : Nat :=
  match e.type with
  | "stage1_start" => 0
  | "stage1_complete" => 1
  | "stage2_start" => 2
  | "stage2_complete" => 3
  | "stage3_start" => 4
  | "stage3_complete" => 5
  | "title_complete" => 6
  | _ => 7

/-- One step taken by the endpoint bodies in main.py: a storage call, spawning
or awaiting a council.py coroutine, or yielding a server-sent event. -/
inductive Step where
  | addUser (content : String)
  | spawnTitle
  | emit (e : Event)
  | awaitStage1
  | awaitStage2
  | awaitStage3
  | awaitTitle
  | invokeTitle
  | runCouncil
  | setTitle (t : String)
  | addAssistant (s1 : Stage1Data) (s2 : Stage2Data) (s3 : Stage3Data)
deriving DecidableEq, Repr

/-- Exogenous outcomes of the awaited council.py calls made by one streaming
turn: what each `await` returns, or the exception it raises. -/
structure TurnOutcomes where
  stage1 : CallResult Stage1Data
  stage2 : CallResult (Stage2Data × LabelMap)
  stage3 : CallResult Stage3Data
  title : CallResult String
deriving Repr

/-- Step-level translation of `event_generator` (main.py lines 409-454):
add the user message, spawn the title task when this is the first message,
then run stages 1-3 in sequence, yielding start/complete events; any raised
exception skips to the single `error` event; on full success the title task
is awaited (first message only), the assistant message is saved, and the
terminal `complete` event is yielded. -/
def event_generator_steps (content : String) (isFirst : Bool) (o : TurnOutcomes) :
    List Step :=
  [Step.addUser content]
    ++ (if isFirst then [Step.spawnTitle] else [])
    ++ [Step.emit evStage1Start, Step.awaitStage1]
    ++ match o.stage1 with
       | CallResult.err m => [Step.emit (evError m)]
       | CallResult.ok s1 =>
         [Step.emit (evStage1Complete s1), Step.emit evStage2Start,
          Step.awaitStage2]
           ++ match o.stage2 with
              | CallResult.err m => [Step.emit (evError m)]
              | CallResult.ok (s2, lm) =>
                let agg := calculate_aggregate_rankings s2 lm
                [Step.emit (evStage2Complete s2 lm agg),
                 Step.emit evStage3Start, Step.awaitStage3]
                  ++ match o.stage3 with
                     | CallResult.err m => [Step.emit (evError m)]
                     | CallResult.ok s3 =>
                       [Step.emit (evStage3Complete s3)]
                         ++ (if isFirst then
                               Step.awaitTitle ::
                                 match o.title with
                                 | CallResult.err m => [Step.emit (evError m)]
                                 | CallResult.ok t =>
                                   [Step.setTitle t,
                                    Step.emit (evTitleComplete t),
                                    Step.addAssistant s1 s2 s3,
                                    Step.emit evComplete]
                             else
                               [Step.addAssistant s1 s2 s3,
                                Step.emit evComplete])

/-- The event yielded by a step, if any. -/
def emittedEvent : Step → Option Event
  | Step.emit e => some e
  | _ => none

/-- The server-sent events of one streaming turn, in yield order. -/
def streamEvents (content : String) (isFirst : Bool) (o : TurnOutcomes) :
    List Event :=
  (event_generator_steps content isFirst o).filterMap emittedEvent

/-- Effect of one step on the stored conversation. -/
def applyStep (c : Conversation) : Step → Conversation
  | Step.addUser content => add_user_message c content
  | Step.setTitle t => update_conversation_title c t
  | Step.addAssistant s1 s2 s3 => add_assistant_message c s1 s2 s3
  | _ => c

/-- The stored conversation after one streaming turn. -/
def runConv (content : String) (isFirst : Bool) (o : TurnOutcomes)
    (c : Conversation) : Conversation :=
  (event_generator_steps content isFirst o).foldl applyStep c

/-- Modelled from the spec: council.py's `stage1_collect_responses` is not
among the available sources; per spec section 4.2 it dispatches one call per
council model, waits for all of them to settle, and records each outcome
(success or failure) as a `ModelResponse` in council-configuration order. -/
def stage1_collect_responses (council : List String)
    (call : String → CallResult String) : Stage1Data :=
  council.map (fun m =>
    match call m with
    | CallResult.ok t => ⟨m, some t, none⟩
    | CallResult.err e => ⟨m, none, some e⟩)

/-- The conversation store: id-keyed conversations. -/
abbrev Store := List (String × Conversation)

/-- Metadata returned by the synchronous path, mirroring the streaming
`stage2_complete` metadata: label map and aggregate rankings. -/
abbrev Metadata := LabelMap × AggregateRanking

/-- What `run_full_council` returns on success (main.py lines 374-376). -/
abbrev CouncilResult := Stage1Data × Stage2Data × Stage3Data × Metadata

/-- A raised `HTTPException(status_code, detail)`. -/
structure HTTPError where
  status : Nat
  detail : String
deriving DecidableEq, Repr

/-- Modelled from the spec: `storage.get_conversation` looks the id up in the
store, `None` when absent. -/
def get_conversation (store : Store) (cid : String) : Option Conversation :=
  (store.find? (fun p => p.1 == cid)).map Prod.snd

/-- Write-back of the mutated conversation into the store (the Python store
mutates in place; state is threaded explicitly here). -/
def setConversation (store : Store) (cid : String) (c : Conversation) : Store :=
  store.map (fun p => if p.1 == cid then (cid, c) else p)

/-- Steps of `run_full_council` as seen from `send_message` (main.py lines
374-384): the council pipeline runs; on success the assistant message is
appended, on a raised exception nothing further happens. -/
def run_full_council_steps (cOut : CallResult CouncilResult) : List Step :=
  Step.runCouncil ::
    match cOut with
    | CallResult.err _ => []
    | CallResult.ok (s1, s2, s3, _) => [Step.addAssistant s1 s2 s3]

/-- Step-level translation of the synchronous `send_message` body after the
404 check (main.py lines 362-384): the user message is stored, then for a
first message the title is generated and stored before the council pipeline
is awaited. -/
def send_message_steps (content : String) (isFirst : Bool)
    (tOut : CallResult String) (cOut : CallResult CouncilResult) : List Step :=
  Step.addUser content ::
    (if isFirst then
      Step.invokeTitle ::
        match tOut with
        | CallResult.err _ => []
        | CallResult.ok t => Step.setTitle t :: run_full_council_steps cOut
    else run_full_council_steps cOut)

/-- The synchronous endpoint `send_message` (main.py lines 351-392): 404 when
the conversation is unknown; otherwise the body runs, mutating the stored
conversation, and the response is the council result or the first raised
exception (an HTTP 500). -/
def send_message (store : Store) (cid : String) (content : String)
    (tOut : CallResult String) (cOut : CallResult CouncilResult) :
    Except HTTPError CouncilResult × Store :=
  match get_conversation store cid with
  | none => (Except.error ⟨404, "Conversation not found"⟩, store)
  | some conv =>
    let isFirst := conv.messages.isEmpty
    let conv2 := (send_message_steps content isFirst tOut cOut).foldl applyStep conv
    let result : Except HTTPError CouncilResult :=
      if isFirst then
        match tOut with
        | CallResult.err m => Except.error ⟨500, m⟩
        | CallResult.ok _ =>
          match cOut with
          | CallResult.err m => Except.error ⟨500, m⟩
          | CallResult.ok r => Except.ok r
      else
        match cOut with
        | CallResult.err m => Except.error ⟨500, m⟩
        | CallResult.ok r => Except.ok r
    (result, setConversation store cid conv2)

/-- The streaming endpoint `send_message_stream` (main.py lines 395-463):
404 when the conversation is unknown; otherwise the event generator runs,
yielding the event stream and mutating the stored conversation. -/
def send_message_stream (store : Store) (cid : String) (content : String)
    (o : TurnOutcomes) : Except HTTPError (List Event) × Store :=
  match get_conversation store cid with
  | none => (Except.error ⟨404, "Conversation not found"⟩, store)
  | some conv =>
    let isFirst := conv.messages.isEmpty
    (Except.ok (streamEvents content isFirst o),
      setConversation store cid (runConv content isFirst o conv))

/-- An event whose payload embeds the given label map. -/
def eventHasLabelMap (lm : LabelMap) (e : Event) : Prop :=
  ∃ d agg, e = evStage2Complete d lm agg

/-- A step that appends the assistant message. -/
def isAssistantAppend : Step → Bool
  | Step.addAssistant _ _ _ => true
  | _ => false

/-- The step that awaits the title task. -/
def isAwaitTitle : Step → Bool
  | Step.awaitTitle => true
  | _ => false

@[simp] theorem evRank_stage1_start : evRank evStage1Start = 0 := rfl

@[simp] theorem evRank_stage1_complete (d : Stage1Data) :
    evRank (evStage1Complete d) = 1 := rfl

@[simp] theorem evRank_stage2_start : evRank evStage2Start = 2 := rfl

@[simp] theorem evRank_stage2_complete (d : Stage2Data) (lm : LabelMap)
    (agg : AggregateRanking) : evRank (evStage2Complete d lm agg) = 3 := rfl

@[simp] theorem evRank_stage3_start : evRank evStage3Start = 4 := rfl

@[simp] theorem evRank_stage3_complete (d : Stage3Data) :
    evRank (evStage3Complete d) = 5 := rfl

@[simp] theorem evRank_title_complete (t : String) :
    evRank (evTitleComplete t) = 6 := rfl

@[simp] theorem evRank_complete : evRank evComplete = 7 := rfl

@[simp] theorem evRank_error (m : String) : evRank (evError m) = 7 := rfl

@[simp] theorem streamEvents_s1err (content : String) (isFirst : Bool)
    (m : String) (r2 : CallResult (Stage2Data × LabelMap))
    (r3 : CallResult Stage3Data) (rt : CallResult String) :
    streamEvents content isFirst ⟨CallResult.err m, r2, r3, rt⟩ =
      [evStage1Start, evError m] := by
  cases isFirst <;> rfl

@[simp] theorem streamEvents_s2err (content : String) (isFirst : Bool)
    (s1 : Stage1Data) (m : String) (r3 : CallResult Stage3Data)
    (rt : CallResult String) :
    streamEvents content isFirst ⟨CallResult.ok s1, CallResult.err m, r3, rt⟩ =
      [evStage1Start, evStage1Complete s1, evStage2Start, evError m] := by
  cases isFirst <;> rfl

@[simp] theorem streamEvents_s3err (content : String) (isFirst : Bool)
    (s1 : Stage1Data) (s2 : Stage2Data) (lm : LabelMap) (m : String)
    (rt : CallResult String) :
    streamEvents content isFirst
        ⟨CallResult.ok s1, CallResult.ok (s2, lm), CallResult.err m, rt⟩ =
      [evStage1Start, evStage1Complete s1, evStage2Start,
       evStage2Complete s2 lm (calculate_aggregate_rankings s2 lm),
       evStage3Start, evError m] := by
  cases isFirst <;> rfl

@[simp] theorem streamEvents_titleErr (content : String) (s1 : Stage1Data)
    (s2 : Stage2Data) (lm : LabelMap) (s3 : Stage3Data) (m : String) :
    streamEvents content true
        ⟨CallResult.ok s1, CallResult.ok (s2, lm), CallResult.ok s3,
         CallResult.err m⟩ =
      [evStage1Start, evStage1Complete s1, evStage2Start,
       evStage2Complete s2 lm (calculate_aggregate_rankings s2 lm),
       evStage3Start, evStage3Complete s3, evError m] := rfl

@[simp] theorem streamEvents_ok_first (content : String) (s1 : Stage1Data)
    (s2 : Stage2Data) (lm : LabelMap) (s3 : Stage3Data) (t : String) :
    streamEvents content true
        ⟨CallResult.ok s1, CallResult.ok (s2, lm), CallResult.ok s3,
         CallResult.ok t⟩ =
      [evStage1Start, evStage1Complete s1, evStage2Start,
       evStage2Complete s2 lm (calculate_aggregate_rankings s2 lm),
       evStage3Start, evStage3Complete s3, evTitleComplete t, evComplete] := rfl

@[simp] theorem streamEvents_ok_notFirst (content : String) (s1 : Stage1Data)
    (s2 : Stage2Data) (lm : LabelMap) (s3 : Stage3Data)
    (rt : CallResult String) :
    streamEvents content false
        ⟨CallResult.ok s1, CallResult.ok (s2, lm), CallResult.ok s3, rt⟩ =
      [evStage1Start, evStage1Complete s1, evStage2Start,
       evStage2Complete s2 lm (calculate_aggregate_rankings s2 lm),
       evStage3Start, evStage3Complete s3, evComplete] := rfl

@[simp] theorem runConv_s1err (content : String) (isFirst : Bool) (m : String)
    (r2 : CallResult (Stage2Data × LabelMap)) (r3 : CallResult Stage3Data)
    (rt : CallResult String) (c : Conversation) :
    runConv content isFirst ⟨CallResult.err m, r2, r3, rt⟩ c =
      add_user_message c content := by
  cases isFirst <;> rfl

@[simp] theorem runConv_s2err (content : String) (isFirst : Bool)
    (s1 : Stage1Data) (m : String) (r3 : CallResult Stage3Data)
    (rt : CallResult String) (c : Conversation) :
    runConv content isFirst ⟨CallResult.ok s1, CallResult.err m, r3, rt⟩ c =
      add_user_message c content := by
  cases isFirst <;> rfl

@[simp] theorem runConv_s3err (content : String) (isFirst : Bool)
    (s1 : Stage1Data) (s2 : Stage2Data) (lm : LabelMap) (m : String)
    (rt : CallResult String) (c : Conversation) :
    runConv content isFirst
        ⟨CallResult.ok s1, CallResult.ok (s2, lm), CallResult.err m, rt⟩ c =
      add_user_message c content := by
  cases isFirst <;> rfl

@[simp] theorem runConv_titleErr (content : String) (s1 : Stage1Data)
    (s2 : Stage2Data) (lm : LabelMap) (s3 : Stage3Data) (m : String)
    (c : Conversation) :
    runConv content true
        ⟨CallResult.ok s1, CallResult.ok (s2, lm), CallResult.ok s3,
         CallResult.err m⟩ c =
      add_user_message c content := rfl

@[simp] theorem runConv_ok_first (content : String) (s1 : Stage1Data)
    (s2 : Stage2Data) (lm : LabelMap) (s3 : Stage3Data) (t : String)
    (c : Conversation) :
    runConv content true
        ⟨CallResult.ok s1, CallResult.ok (s2, lm), CallResult.ok s3,
         CallResult.ok t⟩ c =
      add_assistant_message
        (update_conversation_title (add_user_message c content) t) s1 s2 s3 := rfl

@[simp] theorem runConv_ok_notFirst (content : String) (s1 : Stage1Data)
    (s2 : Stage2Data) (lm : LabelMap) (s3 : Stage3Data)
    (rt : CallResult String) (c : Conversation) :
    runConv content false
        ⟨CallResult.ok s1, CallResult.ok (s2, lm), CallResult.ok s3, rt⟩ c =
      add_assistant_message (add_user_message c content) s1 s2 s3 := rfl

/-- Fixture: Stage-1 success for every council model. -/
def s1Fix : Stage1Data :=
  stage1_collect_responses COUNCIL_MODELS
    (fun m => CallResult.ok ("answer from " ++ m))

/-- Fixture: first judge ranks two labels. -/
def subFixA : RankingSubmission := ⟨"gpt-4o", ["R2", "R3"], "R2 then R3", none⟩

/-- Fixture: second judge ranks all three labels. -/
def subFixB : RankingSubmission :=
  ⟨"gemini-2.0-flash", ["R1", "R3", "R2"], "R1 R3 R2", none⟩

/-- Fixture: third judge ranks all three labels. -/
def subFixC : RankingSubmission :=
  ⟨"claude-sonnet-4-5", ["R1", "R2", "R3"], "R1 R2 R3", none⟩

/-- Fixture: Stage-2 submissions. -/
def s2Fix : Stage2Data := [subFixA, subFixB, subFixC]

/-- Fixture: label map for the three council models. -/
def lmFix : LabelMap :=
  [("R1", "gpt-4o"), ("R2", "gemini-2.0-flash"), ("R3", "claude-sonnet-4-5")]

/-- Fixture: aggregate ranking of the fixture submissions. -/
def aggFix : AggregateRanking := calculate_aggregate_rankings s2Fix lmFix

/-- Fixture: a fully successful turn. -/
def oOkFix : TurnOutcomes :=
  ⟨CallResult.ok s1Fix, CallResult.ok (s2Fix, lmFix),
   CallResult.ok "final answer", CallResult.ok "Greeting"⟩

/-- Fixture: stages 1-2 succeed, the chairman call raises. -/
def oS3ErrFix : TurnOutcomes :=
  ⟨CallResult.ok s1Fix, CallResult.ok (s2Fix, lmFix),
   CallResult.err "chairman down", CallResult.ok "Greeting"⟩

/-- Fixture: all three stages succeed, the title task raises. -/
def oTitleErrFix : TurnOutcomes :=
  ⟨CallResult.ok s1Fix, CallResult.ok (s2Fix, lmFix),
   CallResult.ok "final answer", CallResult.err "title boom"⟩

/-- Fixture: a fresh conversation. -/
def convFix : Conversation := ⟨"New Conversation", []⟩

/-- Fixture: a store holding one conversation. -/
def storeFix : Store := [("c1", convFix)]

/-- C2: aggregate-ranking calculation gives the same model order and scores on
any permutation of the submission list (score summation and first-place
counting are commutative, and the sort key is a fixed total order), so two
runs over the same submission set are identical. -/
theorem c2_aggregate_perm_invariant (subs1 subs2 : List RankingSubmission)
    (lm : LabelMap) (h : subs1.Perm subs2) :
    calculate_aggregate_rankings subs1 lm = calculate_aggregate_rankings subs2 lm := by
  have he : (lm.map Prod.snd).map (fun m =>
        (m, modelScore subs1 lm m, firstPlaceVotes subs1 lm m)) =
      (lm.map Prod.snd).map (fun m =>
        (m, modelScore subs2 lm m, firstPlaceVotes subs2 lm m)) := by
    apply List.map_congr_left
    intro a _
    have hs : modelScore subs1 lm a = modelScore subs2 lm a :=
      List.Perm.sum_eq (h.map (submissionPoints lm a))
    have hf : firstPlaceVotes subs1 lm a = firstPlaceVotes subs2 lm a :=
      h.countP_eq _
    rw [hs, hf]
  unfold calculate_aggregate_rankings
  rw [he]

/-- C2 witness: swapping two concrete submissions leaves the aggregate
ranking unchanged. -/
theorem c2_witness :
    calculate_aggregate_rankings [subFixA, subFixB] lmFix =
      calculate_aggregate_rankings [subFixB, subFixA] lmFix :=
  c2_aggregate_perm_invariant [subFixA, subFixB] [subFixB, subFixA] lmFix
    (List.Perm.swap subFixB subFixA [])

/-- C1: stream events are emitted in strict protocol order (each event's rank
is strictly below every later event's, so no complete event precedes its
predecessor's and the terminal event is last); a `stage2_start` is only
emitted once Stage 1 has returned its settled result set, a `stage3_start`
only once Stage 2 has returned, and the Stage-1 collector records an outcome
for every council model, whatever mix of per-call successes and failures. -/
theorem c1_stream_event_order (content : String) (isFirst : Bool)
    (o : TurnOutcomes) :
    (streamEvents content isFirst o).Pairwise (fun a b => evRank a < evRank b) ∧
    (evStage2Start ∈ streamEvents content isFirst o →
      ∃ d, o.stage1 = CallResult.ok d ∧
        evStage1Complete d ∈ streamEvents content isFirst o) ∧
    (evStage3Start ∈ streamEvents content isFirst o →
      ∃ d lm, o.stage2 = CallResult.ok (d, lm) ∧
        evStage2Complete d lm (calculate_aggregate_rankings d lm) ∈
          streamEvents content isFirst o) ∧
    (∀ council call,
      (stage1_collect_responses council call).length = council.length) := by
  obtain ⟨r1, r2, r3, rt⟩ := o
  rcases r1 with s1 | m1
  · rcases r2 with ⟨s2, lm⟩ | m2
    · rcases r3 with s3 | m3
      · cases isFirst
        · exact ⟨by simp, fun _ => ⟨s1, rfl, by simp⟩,
            fun _ => ⟨s2, lm, rfl, by simp⟩,
            fun council call => by simp [stage1_collect_responses]⟩
        · rcases rt with t | mt
          · exact ⟨by simp, fun _ => ⟨s1, rfl, by simp⟩,
              fun _ => ⟨s2, lm, rfl, by simp⟩,
              fun council call => by simp [stage1_collect_responses]⟩
          · exact ⟨by simp, fun _ => ⟨s1, rfl, by simp⟩,
              fun _ => ⟨s2, lm, rfl, by simp⟩,
              fun council call => by simp [stage1_collect_responses]⟩
      · exact ⟨by cases isFirst <;> simp,
          fun _ => ⟨s1, rfl, by cases isFirst <;> simp⟩,
          fun _ => ⟨s2, lm, rfl, by cases isFirst <;> simp⟩,
          fun council call => by simp [stage1_collect_responses]⟩
    · refine ⟨by cases isFirst <;> simp,
        fun _ => ⟨s1, rfl, by cases isFirst <;> simp⟩, ?_,
        fun council call => by simp [stage1_collect_responses]⟩
      intro hmem
      simp [evStage3Start, evStage1Start, evStage1Complete, evStage2Start,
        evError] at hmem
  · refine ⟨by cases isFirst <;> simp, ?_, ?_,
      fun council call => by simp [stage1_collect_responses]⟩
    · intro hmem
      simp [evStage2Start, evStage1Start, evError] at hmem
    · intro hmem
      simp [evStage3Start, evStage1Start, evError] at hmem

/-- C1 witness: in a concrete fully successful first-message turn,
`stage2_start` was emitted and Stage 1 had indeed returned its result, which
was also emitted. -/
theorem c1_witness :
    ∃ d, oOkFix.stage1 = CallResult.ok d ∧
      evStage1Complete d ∈ streamEvents "hello" true oOkFix :=
  (c1_stream_event_order "hello" true oOkFix).2.1 (by simp [oOkFix])

/-- C5: if a stage raised, the stream carries exactly one `error` event and it
is the last event: nothing, in particular no later start or complete event,
follows it. -/
theorem c5_error_event_single_terminal (content : String) (isFirst : Bool)
    (o : TurnOutcomes) (m : String)
    (h : evError m ∈ streamEvents content isFirst o) :
    (streamEvents content isFirst o).getLast? = some (evError m) ∧
    (streamEvents content isFirst o).countP (fun e => e.type == "error") = 1 := by
  obtain ⟨r1, r2, r3, rt⟩ := o
  rcases r1 with s1 | m1
  · rcases r2 with ⟨s2, lm⟩ | m2
    · rcases r3 with s3 | m3
      · cases isFirst
        · simp [evError, evStage1Start, evStage1Complete, evStage2Start,
            evStage2Complete, evStage3Start, evStage3Complete, evComplete] at h
        · rcases rt with t | mt
          · simp [evError, evStage1Start, evStage1Complete, evStage2Start,
              evStage2Complete, evStage3Start, evStage3Complete, evComplete,
              evTitleComplete] at h
          · simp [evError, evStage1Start, evStage1Complete, evStage2Start,
              evStage2Complete, evStage3Start, evStage3Complete] at h
            subst h
            constructor
            · simp
            · simp [evStage1Start, evStage1Complete, evStage2Start,
                evStage2Complete, evStage3Start, evStage3Complete, evError,
                List.countP_cons]
      · simp [evError, evStage1Start, evStage1Complete, evStage2Start,
          evStage2Complete, evStage3Start] at h
        subst h
        constructor
        · simp
        · simp [evStage1Start, evStage1Complete, evStage2Start,
            evStage2Complete, evStage3Start, evError, List.countP_cons]
    · simp [evError, evStage1Start, evStage1Complete, evStage2Start] at h
      subst h
      constructor
      · simp
      · simp [evStage1Start, evStage1Complete, evStage2Start, evError,
          List.countP_cons]
  · simp [evError, evStage1Start] at h
    subst h
    constructor
    · simp
    · simp [evStage1Start, evError, List.countP_cons]

/-- C5 witness: in a concrete turn whose chairman call raises, the error event
is last and unique. -/
theorem c5_witness :
    (streamEvents "hello" false oS3ErrFix).getLast? =
        some (evError "chairman down") ∧
    (streamEvents "hello" false oS3ErrFix).countP
        (fun e => e.type == "error") = 1 :=
  c5_error_event_single_terminal "hello" false oS3ErrFix "chairman down"
    (by simp [oS3ErrFix])

/-- C6 counterexample: in a concrete fully successful turn, the terminal
event is `{'type': 'complete'}` with no payload; it does not carry the
CouncilTurn (or anything else). -/
theorem c6_counterexample :
    (streamEvents "hello" false oOkFix).getLast? = some evComplete ∧
    ¬ ∃ p : Payload, (streamEvents "hello" false oOkFix).getLast? =
        some ⟨"complete", some p⟩ := by
  constructor
  · simp [oOkFix]
  · rintro ⟨p, hp⟩
    simp [oOkFix, evComplete] at hp

/-- C6 amended: in the successful case the stream terminates with a
payload-free `complete` event, the full turn data having been delivered by
the preceding `stage1_complete`, `stage2_complete` (with label map and
aggregate ranking) and `stage3_complete` events, plus `title_complete` for a
first message. -/
theorem c6_success_stream_shape (content : String) (isFirst : Bool)
    (o : TurnOutcomes) (s1 : Stage1Data) (s2 : Stage2Data) (lm : LabelMap)
    (s3 : Stage3Data) (t : String) (h1 : o.stage1 = CallResult.ok s1)
    (h2 : o.stage2 = CallResult.ok (s2, lm)) (h3 : o.stage3 = CallResult.ok s3)
    (h4 : o.title = CallResult.ok t) :
    streamEvents content isFirst o =
      [evStage1Start, evStage1Complete s1, evStage2Start,
       evStage2Complete s2 lm (calculate_aggregate_rankings s2 lm),
       evStage3Start, evStage3Complete s3] ++
        (if isFirst then [evTitleComplete t] else []) ++ [evComplete] := by
  obtain ⟨r1, r2, r3, rt⟩ := o
  simp only at h1 h2 h3 h4
  subst h1
  subst h2
  subst h3
  subst h4
  cases isFirst <;> simp

/-- C6 witness: the amended shape at a concrete successful first-message
turn. -/
theorem c6_witness :
    streamEvents "hello" true oOkFix =
      [evStage1Start, evStage1Complete s1Fix, evStage2Start,
       evStage2Complete s2Fix lmFix (calculate_aggregate_rankings s2Fix lmFix),
       evStage3Start, evStage3Complete "final answer"] ++
        (if true then [evTitleComplete "Greeting"] else []) ++ [evComplete] :=
  c6_success_stream_shape "hello" true oOkFix s1Fix s2Fix lmFix "final answer"
    "Greeting" rfl rfl rfl rfl

/-- C3 counterexample: in a concrete turn where stages 1-2 succeed and the
chairman call raises, the turn does end with an error event and the Stage-1/2
data was returned through the earlier complete events, but nothing beyond the
user message is persisted: the conversation holds no assistant message, so
the computed Stage-1/2 results are not persisted. -/
theorem c3_counterexample :
    (streamEvents "hello" false oS3ErrFix).getLast? =
        some (evError "chairman down") ∧
    (runConv "hello" false oS3ErrFix convFix).messages =
        [Message.user "hello"] ∧
    ¬ ∃ a b c, Message.assistant a b c ∈
        (runConv "hello" false oS3ErrFix convFix).messages := by
  refine ⟨by simp [oS3ErrFix], by simp [oS3ErrFix, convFix, add_user_message], ?_⟩
  rintro ⟨a, b, c, hm⟩
  simp [oS3ErrFix, convFix, add_user_message] at hm

/-- C3 amended: if the chairman call raises after stages 1 and 2 completed,
the turn is reported to the caller as fatal by a terminal error event, and
the computed Stage-1 and Stage-2 results were already returned to the caller
in the `stage1_complete` and `stage2_complete` events; they are, however, not
persisted: the stored conversation gains only the user message. -/
theorem c3_chairman_failure_partial (content : String) (isFirst : Bool)
    (o : TurnOutcomes) (conv : Conversation) (s1 : Stage1Data)
    (s2 : Stage2Data) (lm : LabelMap) (m : String)
    (h1 : o.stage1 = CallResult.ok s1) (h2 : o.stage2 = CallResult.ok (s2, lm))
    (h3 : o.stage3 = CallResult.err m) :
    streamEvents content isFirst o =
      [evStage1Start, evStage1Complete s1, evStage2Start,
       evStage2Complete s2 lm (calculate_aggregate_rankings s2 lm),
       evStage3Start, evError m] ∧
    runConv content isFirst o conv = add_user_message conv content := by
  obtain ⟨r1, r2, r3, rt⟩ := o
  simp only at h1 h2 h3
  subst h1
  subst h2
  subst h3
  exact ⟨by simp, by simp⟩

/-- C3 witness: the amended behaviour at a concrete chairman failure. -/
theorem c3_witness :
    streamEvents "hello" false oS3ErrFix =
      [evStage1Start, evStage1Complete s1Fix, evStage2Start,
       evStage2Complete s2Fix lmFix (calculate_aggregate_rankings s2Fix lmFix),
       evStage3Start, evError "chairman down"] ∧
    runConv "hello" false oS3ErrFix convFix =
      add_user_message convFix "hello" :=
  c3_chairman_failure_partial "hello" false oS3ErrFix convFix s1Fix s2Fix lmFix
    "chairman down" rfl rfl rfl

/-- C4 counterexample: title generation does fail the turn and is not
concurrent in the synchronous path.  In a concrete streaming first-message
turn where all three stages succeed but the title task raises, the stream
ends with an error event (so the failure is propagated); and in the
synchronous path a failing title call stops the request before the council
pipeline step is ever reached. -/
theorem c4_counterexample :
    (streamEvents "hello" true oTitleErrFix).getLast? =
        some (evError "title boom") ∧
    send_message_steps "hello" true (CallResult.err "title boom")
        (CallResult.ok (s1Fix, s2Fix, "final answer", (lmFix, aggFix))) =
      [Step.addUser "hello", Step.invokeTitle] := by
  constructor
  · simp [oTitleErrFix]
  · rfl

/-- C4 amended: in the streaming execution the title task is spawned before
the first stage event and its outcome influences nothing before the title
await, which happens only once Stage 3 has returned, so title generation
never delays the three stages; on title failure the stored title is left
unchanged, but the failure is propagated as the turn's terminal error event.
In the synchronous execution title generation is not concurrent: it is fully
resolved before the council pipeline step runs, and its failure prevents the
pipeline from running at all. -/
theorem c4_title_generation_behaviour (content : String) (o : TurnOutcomes)
    (tr1 tr2 : CallResult String) (tOut : CallResult String)
    (cOut : CallResult CouncilResult) (conv : Conversation) (m t : String) :
    ((event_generator_steps content true
        ⟨o.stage1, o.stage2, o.stage3, tr1⟩).takeWhile
          (fun s => !(isAwaitTitle s)) =
      (event_generator_steps content true
        ⟨o.stage1, o.stage2, o.stage3, tr2⟩).takeWhile
          (fun s => !(isAwaitTitle s))) ∧
    ((event_generator_steps content true o).take 3 =
      [Step.addUser content, Step.spawnTitle, Step.emit evStage1Start]) ∧
    (Step.awaitTitle ∈ event_generator_steps content true o →
      ∃ s3, o.stage3 = CallResult.ok s3) ∧
    (o.title = CallResult.err m →
      (runConv content true o conv).title = conv.title) ∧
    (∀ s1 s2 lm s3, o.stage1 = CallResult.ok s1 →
      o.stage2 = CallResult.ok (s2, lm) → o.stage3 = CallResult.ok s3 →
      o.title = CallResult.err m →
      (streamEvents content true o).getLast? = some (evError m)) ∧
    (tOut = CallResult.ok t →
      send_message_steps content true tOut cOut =
        [Step.addUser content, Step.invokeTitle, Step.setTitle t] ++
          run_full_council_steps cOut) ∧
    (tOut = CallResult.err m →
      send_message_steps content true tOut cOut =
        [Step.addUser content, Step.invokeTitle]) := by
  obtain ⟨r1, r2, r3, rt⟩ := o
  refine ⟨?_, ?_, ?_, ?_, ?_, ?_, ?_⟩
  · rcases r1 with s1 | m1
    · rcases r2 with ⟨s2, lm⟩ | m2
      · rcases r3 with s3 | m3
        · rcases tr1 with t1 | e1 <;> rcases tr2 with t2 | e2 <;> rfl
        · rfl
      · rfl
    · rfl
  · rfl
  · rcases r1 with s1 | m1
    · rcases r2 with ⟨s2, lm⟩ | m2
      · rcases r3 with s3 | m3
        · exact fun _ => ⟨s3, rfl⟩
        · intro hmem
          rcases rt with t0 | m0 <;>
            simp [event_generator_steps, evError, evStage1Start,
              evStage1Complete, evStage2Start, evStage2Complete,
              evStage3Start] at hmem
      · intro hmem
        rcases rt with t0 | m0 <;>
          simp [event_generator_steps, evError, evStage1Start,
            evStage1Complete, evStage2Start] at hmem
    · intro hmem
      rcases rt with t0 | m0 <;>
        simp [event_generator_steps, evError, evStage1Start] at hmem
  · intro ht
    simp only at ht
    subst ht
    rcases r1 with s1 | m1
    · rcases r2 with ⟨s2, lm⟩ | m2
      · rcases r3 with s3 | m3
        · simp [add_user_message]
        · simp [add_user_message]
      · simp [add_user_message]
    · simp [add_user_message]
  · intro s1 s2 lm s3 h1 h2 h3 ht
    simp only at h1 h2 h3 ht
    subst h1
    subst h2
    subst h3
    subst ht
    simp
  · intro ht
    subst ht
    rfl
  · intro ht
    subst ht
    rfl

/-- C4 witness: in a concrete successful first-message turn the title task
was awaited only because Stage 3 had already returned. -/
theorem c4_witness :
    ∃ s3, oOkFix.stage3 = CallResult.ok s3 :=
  (c4_title_generation_behaviour "hello" oOkFix (CallResult.ok "t")
      (CallResult.ok "t") (CallResult.ok "t")
      (CallResult.ok (s1Fix, s2Fix, "final answer", (lmFix, aggFix))) convFix
      "m" "t").2.2.1
    (by simp [oOkFix, event_generator_steps])

/-- C7 counterexample: the label map is not confined to the orchestrator and
the aggregator — in a concrete successful turn, the `stage2_complete` event
emitted to the caller carries the turn's label-to-model mapping in its
metadata. -/
theorem c7_counterexample :
    eventHasLabelMap lmFix
        (evStage2Complete s2Fix lmFix
          (calculate_aggregate_rankings s2Fix lmFix)) ∧
    evStage2Complete s2Fix lmFix (calculate_aggregate_rankings s2Fix lmFix) ∈
      streamEvents "hello" false oOkFix :=
  ⟨⟨s2Fix, calculate_aggregate_rankings s2Fix lmFix, rfl⟩, by simp [oOkFix]⟩

/-- C7 amended: within the streaming orchestrator the label map produced by
Stage 2 is consumed by the rank aggregator and is additionally emitted to the
caller inside the `stage2_complete` event's metadata; no other emitted event
carries a label map, and the one that does carries exactly the turn's map
together with the aggregate ranking the aggregator computed from it. -/
theorem c7_labelmap_only_in_stage2_event (content : String) (isFirst : Bool)
    (o : TurnOutcomes) (e : Event) (lm : LabelMap)
    (he : e ∈ streamEvents content isFirst o) (hlm : eventHasLabelMap lm e) :
    ∃ d, o.stage2 = CallResult.ok (d, lm) ∧
      e = evStage2Complete d lm (calculate_aggregate_rankings d lm) := by
  obtain ⟨d, agg, rfl⟩ := hlm
  obtain ⟨r1, r2, r3, rt⟩ := o
  rcases r1 with s1 | m1
  · rcases r2 with ⟨s2, lm2⟩ | m2
    · rcases r3 with s3 | m3
      · cases isFirst
        · simp only [streamEvents_ok_notFirst, List.mem_cons,
            List.mem_singleton] at he
          simp [evStage2Complete, evStage1Start, evStage1Complete,
            evStage2Start, evStage3Start, evStage3Complete, evComplete] at he
          obtain ⟨hd, hlm2, hagg⟩ := he
          subst hd
          subst hlm2
          subst hagg
          exact ⟨d, rfl, rfl⟩
        · rcases rt with t | mt
          · simp [evStage2Complete, evStage1Start, evStage1Complete,
              evStage2Start, evStage3Start, evStage3Complete, evComplete,
              evTitleComplete] at he
            obtain ⟨hd, hlm2, hagg⟩ := he
            subst hd
            subst hlm2
            subst hagg
            exact ⟨d, rfl, rfl⟩
          · simp [evStage2Complete, evStage1Start, evStage1Complete,
              evStage2Start, evStage3Start, evStage3Complete, evError] at he
            obtain ⟨hd, hlm2, hagg⟩ := he
            subst hd
            subst hlm2
            subst hagg
            exact ⟨d, rfl, rfl⟩
      · simp [evStage2Complete, evStage1Start, evStage1Complete,
          evStage2Start, evStage3Start, evError] at he
        obtain ⟨hd, hlm2, hagg⟩ := he
        subst hd
        subst hlm2
        subst hagg
        exact ⟨d, rfl, rfl⟩
    · simp [evStage2Complete, evStage1Start, evStage1Complete, evStage2Start,
        evError] at he
  · simp [evStage2Complete, evStage1Start, evError] at he

/-- C7 witness: the amended statement at the concrete successful turn. -/
theorem c7_witness :
    ∃ d, oOkFix.stage2 = CallResult.ok (d, lmFix) ∧
      evStage2Complete s2Fix lmFix (calculate_aggregate_rankings s2Fix lmFix) =
        evStage2Complete d lmFix (calculate_aggregate_rankings d lmFix) :=
  c7_labelmap_only_in_stage2_event "hello" false oOkFix
    (evStage2Complete s2Fix lmFix (calculate_aggregate_rankings s2Fix lmFix))
    lmFix (by simp [oOkFix])
    ⟨s2Fix, calculate_aggregate_rankings s2Fix lmFix, rfl⟩

/-- C8: the user message is stored as the generator's very first action, and
when the turn ends with an error event it is not rolled back: the stored
conversation holds exactly its previous messages plus the new user message —
in particular no assistant message was appended for this turn. -/
theorem c8_user_message_survives_error (content : String) (isFirst : Bool)
    (o : TurnOutcomes) (conv : Conversation) (m : String)
    (h : evError m ∈ streamEvents content isFirst o) :
    (event_generator_steps content isFirst o).head? =
        some (Step.addUser content) ∧
    (runConv content isFirst o conv).messages =
      conv.messages ++ [Message.user content] := by
  obtain ⟨r1, r2, r3, rt⟩ := o
  refine ⟨by cases isFirst <;> rfl, ?_⟩
  rcases r1 with s1 | m1
  · rcases r2 with ⟨s2, lm⟩ | m2
    · rcases r3 with s3 | m3
      · cases isFirst
        · simp [evError, evStage1Start, evStage1Complete, evStage2Start,
            evStage2Complete, evStage3Start, evStage3Complete, evComplete] at h
        · rcases rt with t | mt
          · simp [evError, evStage1Start, evStage1Complete, evStage2Start,
              evStage2Complete, evStage3Start, evStage3Complete, evComplete,
              evTitleComplete] at h
          · simp [add_user_message]
      · simp [add_user_message]
    · simp [add_user_message]
  · simp [add_user_message]

/-- C8 witness: at a concrete chairman failure the user message is persisted
and nothing else. -/
theorem c8_witness :
    (event_generator_steps "hello" false oS3ErrFix).head? =
        some (Step.addUser "hello") ∧
    (runConv "hello" false oS3ErrFix convFix).messages =
      convFix.messages ++ [Message.user "hello"] :=
  c8_user_message_survives_error "hello" false oS3ErrFix convFix
    "chairman down" (by simp [oS3ErrFix])

/-- C9: in a streaming first-message turn the assistant append only ever
occurs after the title await (among the steps that are either the title await
or the assistant append, the title await comes first), and if the title task
raises after all three stages succeeded, the stream ends with an error event
and the assistant message is not persisted: the conversation gains only the
user message. -/
theorem c9_title_failure_aborts_persist (content : String) (o : TurnOutcomes)
    (conv : Conversation) (s1 : Stage1Data) (s2 : Stage2Data) (lm : LabelMap)
    (s3 : Stage3Data) (m : String) (h1 : o.stage1 = CallResult.ok s1)
    (h2 : o.stage2 = CallResult.ok (s2, lm)) (h3 : o.stage3 = CallResult.ok s3)
    (h4 : o.title = CallResult.err m) :
    ((event_generator_steps content true o).filter
        (fun s => isAwaitTitle s || isAssistantAppend s)).head? =
      some Step.awaitTitle ∧
    (streamEvents content true o).getLast? = some (evError m) ∧
    (runConv content true o conv).messages =
      conv.messages ++ [Message.user content] ∧
    Step.addAssistant s1 s2 s3 ∉ event_generator_steps content true o := by
  obtain ⟨r1, r2, r3, rt⟩ := o
  simp only at h1 h2 h3 h4
  subst h1
  subst h2
  subst h3
  subst h4
  refine ⟨rfl, by simp, by simp [add_user_message], ?_⟩
  intro hmem
  simp [event_generator_steps, emittedEvent] at hmem

/-- C9 witness: the behaviour at a concrete title-task failure. -/
theorem c9_witness :
    ((event_generator_steps "hello" true oTitleErrFix).filter
        (fun s => isAwaitTitle s || isAssistantAppend s)).head? =
      some Step.awaitTitle ∧
    (streamEvents "hello" true oTitleErrFix).getLast? =
        some (evError "title boom") ∧
    (runConv "hello" true oTitleErrFix convFix).messages =
      convFix.messages ++ [Message.user "hello"] ∧
    Step.addAssistant s1Fix s2Fix "final answer" ∉
      event_generator_steps "hello" true oTitleErrFix :=
  c9_title_failure_aborts_persist "hello" oTitleErrFix convFix s1Fix s2Fix
    lmFix "final answer" "title boom" rfl rfl rfl rfl

/-- C10: a send-message request (synchronous or streaming) naming an unknown
conversation id fails with HTTP 404 `Conversation not found` and leaves the
store unchanged; the result does not depend on any pipeline outcome, so no
stage was consumed and nothing was persisted. -/
theorem c10_unknown_conversation_404 (store : Store) (cid content : String)
    (tOut : CallResult String) (cOut : CallResult CouncilResult)
    (o : TurnOutcomes) (h : get_conversation store cid = none) :
    send_message store cid content tOut cOut =
      (Except.error ⟨404, "Conversation not found"⟩, store) ∧
    send_message_stream store cid content o =
      (Except.error ⟨404, "Conversation not found"⟩, store) := by
  constructor
  · simp [send_message, h]
  · simp [send_message_stream, h]

/-- C10 witness: a concrete miss in a concrete store returns 404 on both
endpoints and leaves the store intact. -/
theorem c10_witness :
    send_message storeFix "missing" "hello" (CallResult.ok "t")
        (CallResult.ok (s1Fix, s2Fix, "final answer", (lmFix, aggFix))) =
      (Except.error ⟨404, "Conversation not found"⟩, storeFix) ∧
    send_message_stream storeFix "missing" "hello" oOkFix =
      (Except.error ⟨404, "Conversation not found"⟩, storeFix) :=
  c10_unknown_conversation_404 storeFix "missing" "hello" (CallResult.ok "t")
    (CallResult.ok (s1Fix, s2Fix, "final answer", (lmFix, aggFix))) oOkFix rfl
